import Mathlib

/-!
Verification of the structure parser and document renderer of GA-3-09
(`src/GA-3-09.py`): the functions `clean_and_parse_qwen_output` and
`generate_html`, shallowly embedded in Lean.

Conventions of the embedding:
* Python strings are Lean `String`s (both are sequences of Unicode code
  points; Python slicing `line[1:]` is modelled by dropping one character).
* The Python string primitives are modelled as executable functions over
  the character list of the string: `str.strip()` is `pyStrip` (strips the
  ASCII whitespace characters space, tab, CR, LF, the whitespace occurring
  in this program's data), `str.split('\n')` is `pySplitNL`,
  `str.startswith(p)` is `pyStartsWith`, `str.lower()` is `pyLower`
  (lowercasing the ASCII and Cyrillic alphabets, the alphabets the
  conclusion keyword matching touches), `' '.join(...)` is `joinSpace`,
  and `str.replace(old, new, 1)` (first occurrence only) is
  `pyReplaceFirst`.
* Python truthiness tests on the optional current heading are modelled by
  `pyTruthyOpt` (`None` and `""` are falsy), and on strings by `≠ ""`.
* The parsed dict `{'title', 'sections', 'conclusion'}` is the structure
  `Parsed`; a section dict `{'h2', 'p'}` is the structure `Sect`.
-/

set_option maxRecDepth 8192

namespace GA309

/-- The whitespace characters `str.strip()` removes in this program's data
(space, tab, CR, LF). -/
def isPyWS (c : Char) : Bool := c == ' ' || c == '\t' || c == '\r' || c == '\n'

/-- Strip leading and trailing whitespace from a character list. -/
def trimCharList (l : List Char) : List Char :=
  ((l.dropWhile isPyWS).reverse.dropWhile isPyWS).reverse

/-- Python `str.strip()` (restricted to the ASCII whitespace this program
meets). -/
def pyStrip (s : String) : String := ⟨trimCharList s.data⟩

/-- Split a character list at every `'\n'`, accumulating the current
segment in reverse; models Python `str.split('\n')`, which never drops
empty segments. -/
def splitNLAux (acc : List Char) : List Char → List String
  | [] => [⟨acc.reverse⟩]
  | c :: cs => if c = '\n' then ⟨acc.reverse⟩ :: splitNLAux [] cs
               else splitNLAux (c :: acc) cs

/-- Python `str.split('\n')`. -/
def pySplitNL (s : String) : List String := splitNLAux [] s.data

/-- Whether `p` is an initial segment of `l`. -/
def isHeadSeg : List Char → List Char → Bool
  | [], _ => true
  | _ :: _, [] => false
  | p :: ps, c :: cs => p == c && isHeadSeg ps cs

/-- Python `s.startswith(pre)`. -/
def pyStartsWith (s pre : String) : Bool := isHeadSeg pre.data s.data

/-- Python `str.lower()` on a single character, for the ASCII and Cyrillic
ranges (`А`..`Я` and `Ё` are the uppercase Cyrillic letters used here). -/
def pyLowerChar (c : Char) : Char :=
  if 'A' ≤ c ∧ c ≤ 'Z' then Char.ofNat (c.toNat + 32)
  else if 'А' ≤ c ∧ c ≤ 'Я' then Char.ofNat (c.toNat + 32)
  else if c = 'Ё' then 'ё'
  else c

/-- Python `str.lower()` (on the alphabets this program touches). -/
def pyLower (s : String) : String := ⟨s.data.map pyLowerChar⟩

/-- Python `line[1:]`: drop the first character. -/
def pyDropOne (s : String) : String := ⟨s.data.drop 1⟩

/-- Python `' '.join(strings)` as a character list. -/
def joinSpace : List String → List Char
  | [] => []
  | [s] => s.data
  | s :: rest => s.data ++ ' ' :: joinSpace rest

/-- Replace the first occurrence of `pat` by `repl` in a character list
(the list form of Python `str.replace(pat, repl, 1)` for non-empty `pat`). -/
def replaceFirstAux (pat repl : List Char) : List Char → List Char
  | [] => []
  | c :: rest =>
    if (c :: rest).take pat.length = pat then repl ++ (c :: rest).drop pat.length
    else c :: replaceFirstAux pat repl rest

/-- Python `s.replace(pat, repl, 1)`: replace only the first occurrence of
`pat` in `s` by `repl`; an empty pattern inserts `repl` at the front, as in
Python. -/
def pyReplaceFirst (s pat repl : String) : String :=
  if pat.data = [] then repl ++ s
  else ⟨replaceFirstAux pat.data repl.data s.data⟩

/-- Python truthiness of the `current_h2` variable, which is either `None`
or a string: `None` and the empty string are falsy. -/
def pyTruthyOpt : Option String → Bool
  | none => false
  | some s => s ≠ ""

/-- One entry of the parser's `sections` list: the dict
`{'h2': ..., 'p': ...}` built at lines 116–119 of `src/GA-3-09.py`. -/
structure Sect where
  h2 : String
  p : String
deriving Repr, DecidableEq

/-- The parser's result dict `{'title', 'sections', 'conclusion'}`
(lines 88–92 of `src/GA-3-09.py`). -/
structure Parsed where
  title : String
  sections : List Sect
  conclusion : String
deriving Repr, DecidableEq

/-- The mutable state of the parsing loop of `clean_and_parse_qwen_output`:
the result dict under construction plus `current_h2`, `current_p_lines`
and the flag `in_conclusion` (lines 101–103 of `src/GA-3-09.py`). -/
structure ParseState where
  parsed : Parsed
  current_h2 : Option String
  current_p_lines : List String
  in_conclusion : Bool
deriving Repr, DecidableEq

/-- The initial parser state: empty result dict, `current_h2 = None`,
no accumulated lines, `in_conclusion = False`. -/
def initState : ParseState :=
  ⟨⟨"", [], ""⟩, none, [], false⟩

/-- `' '.join(current_p_lines).strip()` (lines 114 and 118 of
`src/GA-3-09.py`). -/
def joinBody (ls : List String) : String := pyStrip ⟨joinSpace ls⟩

/-- The block-flushing step of `clean_and_parse_qwen_output`
(lines 112–120, repeated at lines 138–145 of `src/GA-3-09.py`):
if `current_h2` and `current_p_lines` are both truthy, emit the
accumulated block into `conclusion` or `sections` and clear the
accumulator; otherwise do nothing. -/
def flushBlock (st : ParseState) : ParseState :=
  if pyTruthyOpt st.current_h2 ∧ st.current_p_lines ≠ [] then
    if st.in_conclusion then
      { st with
        parsed := { st.parsed with conclusion := joinBody st.current_p_lines },
        current_p_lines := [] }
    else
      { st with
        parsed := { st.parsed with sections :=
          st.parsed.sections ++ [⟨st.current_h2.getD "", joinBody st.current_p_lines⟩] },
        current_p_lines := [] }
  else st

/-- One iteration of the `for line in lines` loop of
`clean_and_parse_qwen_output` (lines 105–135 of `src/GA-3-09.py`). -/
def processLine (st : ParseState) (line0 : String) : ParseState :=
  let line := pyStrip line0
  if line = "" then st
  else if pyStartsWith line "#" then
    let st1 := flushBlock st
    let header := pyStrip (pyDropOne line)
    if st1.parsed.title = "" then
      { st1 with parsed := { st1.parsed with title := header } }
    else if pyStartsWith (pyLower header) "вывод" then
      { st1 with current_h2 := some "Вывод", in_conclusion := true }
    else
      { st1 with current_h2 := some header, in_conclusion := false }
  else
    if pyTruthyOpt st.current_h2 then
      { st with current_p_lines := st.current_p_lines ++ [line] }
    else st

/-- The index of the first line whose stripped form starts with `#`:
`next(i for i, line in enumerate(lines) if line.strip().startswith('#'))`
(line 96 of `src/GA-3-09.py`); `none` models the raised `StopIteration`. -/
def findFirstHash : List String → Option Nat
  | [] => none
  | l :: ls =>
    if pyStartsWith (pyStrip l) "#" then some 0
    else (findFirstHash ls).map (· + 1)

/-- Lines 94–99 of `src/GA-3-09.py`: drop everything before the first `#`
line; if there is none (`StopIteration` caught), the line list becomes
empty. -/
def cutAtFirstHash (lines : List String) : List String :=
  match findFirstHash lines with
  | some i => lines.drop i
  | none => []

/-- `clean_and_parse_qwen_output` (lines 82–147 of `src/GA-3-09.py`). -/
def clean_and_parse_qwen_output (raw_text : String) : Parsed :=
  let lines := pySplitNL (pyStrip raw_text)
  let lines2 := cutAtFirstHash lines
  (flushBlock (lines2.foldl processLine initState)).parsed

/-- `clean_and_parse_qwen_output` with the one fallible operation made
explicit: the `next(...)` of line 96 of `src/GA-3-09.py` may raise
`StopIteration` (here: return `Except.error`), and the surrounding
`try`/`except` recovers with an empty line list. Every other operation of
the function is total, so the result is always `Except.ok`. -/
def clean_and_parse_qwen_outputE (raw_text : String) : Except String Parsed :=
  let lines := pySplitNL (pyStrip raw_text)
  let firstHash : Except String Nat :=
    match findFirstHash lines with
    | some i => .ok i
    | none => .error "StopIteration"
  let lines2 := match firstHash with
    | .ok i => lines.drop i
    | .error _ => []
  .ok ((flushBlock (lines2.foldl processLine initState)).parsed)

/-- The conclusion paragraph text of `generate_html`:
`parsed['conclusion'].replace("вывод:", "", 1).strip()`
(line 179 of `src/GA-3-09.py`). -/
def conclusion_text (conclusion : String) : String :=
  pyStrip (pyReplaceFirst conclusion "вывод:" "")

/-- The fixed HTML shell of `generate_html` up to and including the `<h1>`
line, parameterized by the title (lines 154–170 of `src/GA-3-09.py`). -/
def htmlShell (title : String) : String :=
  "<!DOCTYPE html>\n<html lang=\"ru\">\n<head>\n    <meta charset=\"UTF-8\">\n    <meta name=\"viewport\" content=\"width=device-width, initial-scale=1.0\">\n    <title>" ++ title ++ "</title>\n    <style>\n        body \x7b font-family: \x27Segoe UI\x27, sans-serif; line-height: 1.7; max-width: 800px; margin: 40px auto; padding: 20px; background: #f9f9fb; color: #333; \x7d\n        h1 \x7b color: #2c3e50; border-bottom: 3px solid #3498db; padding-bottom: 10px; \x7d\n        h2 \x7b color: #2980b9; margin-top: 30px; \x7d\n        p \x7b margin: 15px 0; text-align: justify; \x7d\n        .conclusion \x7b background: #ecf0f1; padding: 20px; border-left: 5px solid #3498db; border-radius: 5px; \x7d\n    </style>\n</head>\n<body>\n    <h1>" ++ title ++ "</h1>\n"

/-- The HTML appended for one section (lines 172–174 of `src/GA-3-09.py`). -/
def sectionHtml (s : Sect) : String :=
  "    <h2>" ++ s.h2 ++ "</h2>\n" ++ "    <p>" ++ s.p ++ "</p>\n"

/-- The conclusion `<div>` appended when `parsed['conclusion']` is truthy
(lines 176–181 of `src/GA-3-09.py`). -/
def conclusionDiv (conclusion : String) : String :=
  "    <div class=\x27conclusion\x27>\n" ++ "        <h2>Вывод</h2>\n" ++
    "        <p>" ++ conclusion_text conclusion ++ "</p>\n" ++ "    </div>\n"

/-- The pure text-assembly part of `generate_html`
(lines 150–185 of `src/GA-3-09.py`); the file write of line 187 is the
single external side effect and is outside the embedding. -/
def generate_html (parsed : Parsed) : String :=
  let html := htmlShell parsed.title
  let html := parsed.sections.foldl (fun acc s => acc ++ sectionHtml s) html
  let html := if parsed.conclusion ≠ "" then html ++ conclusionDiv parsed.conclusion
    else html
  html ++ "\n</body>\n</html>"

/-- The last element of an assignment log, or `""` when nothing was ever
assigned. -/
def lastAssigned : List String → String
  | [] => ""
  | [x] => x
  | _ :: x :: xs => lastAssigned (x :: xs)

/-- The parse state paired with `concLog`, the list of every value
assigned to `parsed['conclusion']` in assignment order — instrumentation
of the assignment site at line 114 of `src/GA-3-09.py` (the loop flush);
the site at line 140 (the final flush) is instrumented by `finalLog`. -/
structure ParseStateL where
  base : ParseState
  concLog : List String
deriving Repr, DecidableEq

/-- One loop iteration of the instrumented parser: the base state steps by
`processLine`, and the log grows exactly when the assignment at line 114
of `src/GA-3-09.py` executes — on a non-blank marker line, with truthy
`current_h2` and `current_p_lines`, while `in_conclusion` is set. -/
def processLineL (st : ParseStateL) (line0 : String) : ParseStateL :=
  let line := pyStrip line0
  ⟨processLine st.base line0,
    if line ≠ "" ∧ pyStartsWith line "#" = true ∧
        (pyTruthyOpt st.base.current_h2 = true ∧ st.base.current_p_lines ≠ []) ∧
        st.base.in_conclusion = true then
      st.concLog ++ [joinBody st.base.current_p_lines]
    else st.concLog⟩

/-- The log after the final flush (lines 138–145 of `src/GA-3-09.py`): one
more entry exactly when the assignment at line 140 executes. -/
def finalLog (st : ParseStateL) : List String :=
  if (pyTruthyOpt st.base.current_h2 = true ∧ st.base.current_p_lines ≠ []) ∧
      st.base.in_conclusion = true then
    st.concLog ++ [joinBody st.base.current_p_lines]
  else st.concLog

/-- The instrumented parser: the parse result together with the list of
all values assigned to `conclusion`, in order. -/
def clean_and_parse_qwen_output_logged (raw_text : String) : Parsed × List String :=
  let lines := pySplitNL (pyStrip raw_text)
  let lines2 := cutAtFirstHash lines
  let fin := lines2.foldl processLineL ⟨initState, []⟩
  ((flushBlock fin.base).parsed, finalLog fin)

/-- Specification-side characterization for the amended C3 claim: the
header text (marker stripped, trimmed) of the first line that is a marker
line with non-empty header text; `""` if no such line exists. -/
def firstTitle : List String → String
  | [] => ""
  | l :: ls =>
    if pyStartsWith (pyStrip l) "#" = true ∧ pyStrip (pyDropOne (pyStrip l)) ≠ "" then
      pyStrip (pyDropOne (pyStrip l))
    else firstTitle ls

/-! ### Helper lemmas -/

theorem findFirstHash_eq_none (ls : List String)
    (h : ∀ l ∈ ls, pyStartsWith (pyStrip l) "#" = false) :
    findFirstHash ls = none := by
  induction ls with
  | nil => rfl
  | cons a t ih =>
    simp only [findFirstHash, h a (List.mem_cons_self a t),
      ih (fun l hl => h l (List.mem_cons_of_mem a hl))]
    rfl

/-! ### Claim theorems -/

/-- C1 (amended): the end-to-end example input parses to
`title = "Сокровища моря"`, one section `{h2 = "Начало", p = "Корабль плыл
по волнам. Команда искала приключения."}` and `conclusion = "Вывод:
Плавание завершилось успехом."`; the rendered HTML contains a conclusion
paragraph whose text is `"Вывод: Плавание завершилось успехом."` — the
label is NOT stripped, because the replace of `"вывод:"` is case-sensitive
and the conclusion starts with capitalized `"Вывод:"`. -/
theorem C1_end_to_end :
    clean_and_parse_qwen_output "# Сокровища моря\n# Начало\nКорабль плыл по волнам.\nКоманда искала приключения.\n# Вывод\nВывод: Плавание завершилось успехом." =
      ⟨"Сокровища моря", [⟨"Начало", "Корабль плыл по волнам. Команда искала приключения."⟩],
        "Вывод: Плавание завершилось успехом."⟩ ∧
    generate_html (clean_and_parse_qwen_output "# Сокровища моря\n# Начало\nКорабль плыл по волнам.\nКоманда искала приключения.\n# Вывод\nВывод: Плавание завершилось успехом.") =
      htmlShell "Сокровища моря" ++
        sectionHtml ⟨"Начало", "Корабль плыл по волнам. Команда искала приключения."⟩ ++
        ("    <div class=\x27conclusion\x27>\n" ++ "        <h2>Вывод</h2>\n" ++
          "        <p>" ++ "Вывод: Плавание завершилось успехом." ++ "</p>\n" ++
          "    </div>\n") ++ "\n</body>\n</html>" := by
  have hparse : clean_and_parse_qwen_output "# Сокровища моря\n# Начало\nКорабль плыл по волнам.\nКоманда искала приключения.\n# Вывод\nВывод: Плавание завершилось успехом." =
      ⟨"Сокровища моря", [⟨"Начало", "Корабль плыл по волнам. Команда искала приключения."⟩],
        "Вывод: Плавание завершилось успехом."⟩ := by decide
  refine ⟨hparse, ?_⟩
  rw [hparse]
  have hct : conclusion_text "Вывод: Плавание завершилось успехом." =
      "Вывод: Плавание завершилось успехом." := by decide
  simp only [generate_html, conclusionDiv, List.foldl_cons, List.foldl_nil, hct]
  rw [if_pos (show ("Вывод: Плавание завершилось успехом." : String) ≠ "" by decide)]

/-- C1: the claim as stated is false — the rendered conclusion paragraph
text for the end-to-end example is the unchanged `"Вывод: Плавание
завершилось успехом."`, not `"Плавание завершилось успехом."`. -/
theorem C1_render_counterexample :
    conclusion_text ((clean_and_parse_qwen_output "# Сокровища моря\n# Начало\nКорабль плыл по волнам.\nКоманда искала приключения.\n# Вывод\nВывод: Плавание завершилось успехом.").conclusion) =
      "Вывод: Плавание завершилось успехом." ∧
    ("Вывод: Плавание завершилось успехом." : String) ≠ "Плавание завершилось успехом." := by
  constructor <;> decide

/-- C2 (amended): for every parsed document with non-empty conclusion, the
rendered HTML contains the conclusion paragraph, whose text is the
conclusion string with the first case-sensitive occurrence of `"вывод:"`
— anywhere in the string, not only at the very start — removed, then
whitespace-trimmed. -/
theorem C2_conclusion_paragraph (d : Parsed) (h : d.conclusion ≠ "") :
    ∃ pre post, generate_html d =
      pre ++ ("        <p>" ++ pyStrip (pyReplaceFirst d.conclusion "вывод:" "") ++ "</p>\n")
        ++ post := by
  refine ⟨(d.sections.foldl (fun acc s => acc ++ sectionHtml s) (htmlShell d.title)) ++
    ("    <div class=\x27conclusion\x27>\n" ++ "        <h2>Вывод</h2>\n"),
    "    </div>\n" ++ "\n</body>\n</html>", ?_⟩
  simp only [generate_html, conclusionDiv, conclusion_text, if_pos h]
  simp only [String.append_assoc]

/-- C2: the claim as stated is false — a conclusion containing `"вывод:"`
only in the middle does not render with its text unchanged apart from
trimming: the code removes the first occurrence anywhere, so
`"Итог: вывод: конец."` renders as `"Итог:  конец."`. -/
theorem C2_counterexample :
    conclusion_text "Итог: вывод: конец." = "Итог:  конец." ∧
    ("Итог:  конец." : String) ≠ "Итог: вывод: конец." := by
  constructor <;> decide

/-- C2 witness: the theorem applied to the concrete document with
conclusion `"вывод: Итог таков."`. -/
theorem C2_conclusion_paragraph_witness :
    ("вывод: Итог таков." : String) ≠ "" ∧
    ∃ pre post, generate_html ⟨"Тема", [], "вывод: Итог таков."⟩ =
      pre ++ ("        <p>" ++
        pyStrip (pyReplaceFirst (Parsed.conclusion ⟨"Тема", [], "вывод: Итог таков."⟩) "вывод:" "")
        ++ "</p>\n") ++ post :=
  ⟨by decide, C2_conclusion_paragraph ⟨"Тема", [], "вывод: Итог таков."⟩ (by decide)⟩

/-- C7: an input none of whose lines has a stripped form starting with the
marker `#` parses to the all-empty document. -/
theorem C7_no_marker_empty_doc (raw : String)
    (h : ∀ l ∈ pySplitNL (pyStrip raw), pyStartsWith (pyStrip l) "#" = false) :
    clean_and_parse_qwen_output raw = ⟨"", [], ""⟩ := by
  have hn : findFirstHash (pySplitNL (pyStrip raw)) = none := findFirstHash_eq_none _ h
  simp only [clean_and_parse_qwen_output, cutAtFirstHash, hn]
  rfl

/-- C7 witness: the theorem applied to the concrete marker-free input
`"привет\nмир"`. -/
theorem C7_no_marker_empty_doc_witness :
    (∀ l ∈ pySplitNL (pyStrip "привет\nмир"), pyStartsWith (pyStrip l) "#" = false) ∧
    clean_and_parse_qwen_output "привет\nмир" = ⟨"", [], ""⟩ :=
  ⟨by decide, C7_no_marker_empty_doc "привет\nмир" (by decide)⟩

/-- C8: the parser never raises — with the single fallible operation
(`next(...)`, which may raise `StopIteration`) made explicit in
`clean_and_parse_qwen_outputE`, the result is `Except.ok` of the plain
parse result for every input string, because the `try`/`except` recovers
by parsing an empty line list. -/
theorem C8_parse_total (raw : String) :
    clean_and_parse_qwen_outputE raw = Except.ok (clean_and_parse_qwen_output raw) := by
  unfold clean_and_parse_qwen_outputE clean_and_parse_qwen_output cutAtFirstHash
  cases h : findFirstHash (pySplitNL (pyStrip raw)) <;> simp [h]

/-- C9: rendering is deterministic and a function of the `title`,
`sections` and `conclusion` fields only: two documents agreeing on those
three fields render to identical output text. -/
theorem C9_render_deterministic (d1 d2 : Parsed) (h1 : d1.title = d2.title)
    (h2 : d1.sections = d2.sections) (h3 : d1.conclusion = d2.conclusion) :
    generate_html d1 = generate_html d2 := by
  cases d1; cases d2
  simp only at h1 h2 h3
  subst h1; subst h2; subst h3
  rfl

/-- C9 witness: the theorem applied to two (syntactically repeated)
concrete documents. -/
theorem C9_render_deterministic_witness :
    generate_html ⟨"Заголовок", [⟨"Часть", "текст"⟩], "вывод: итог"⟩ =
      generate_html ⟨"Заголовок", [⟨"Часть", "текст"⟩], "вывод: итог"⟩ :=
  C9_render_deterministic ⟨"Заголовок", [⟨"Часть", "текст"⟩], "вывод: итог"⟩
    ⟨"Заголовок", [⟨"Часть", "текст"⟩], "вывод: итог"⟩ rfl rfl rfl

theorem flushBlock_parsed_title (st : ParseState) :
    (flushBlock st).parsed.title = st.parsed.title := by
  unfold flushBlock
  split_ifs <;> rfl

/-- C5: a non-title marker line whose header text case-insensitively starts
with the keyword `"вывод"` sets `current_h2` to the canonical label
`"Вывод"` and raises the `in_conclusion` flag; and flushing an accumulated
block while `in_conclusion` is set assigns the joined body to `conclusion`
and leaves `sections` unchanged — so the body lines following such a
heading are routed into the conclusion field, not the sections list. -/
theorem C5_conclusion_routing :
    (∀ (st : ParseState) (line : String), st.parsed.title ≠ "" →
      pyStartsWith (pyStrip line) "#" = true →
      pyStartsWith (pyLower (pyStrip (pyDropOne (pyStrip line)))) "вывод" = true →
      (processLine st line).current_h2 = some "Вывод" ∧
        (processLine st line).in_conclusion = true) ∧
    (∀ st : ParseState, st.in_conclusion = true → pyTruthyOpt st.current_h2 = true →
      st.current_p_lines ≠ [] →
      (flushBlock st).parsed.conclusion = joinBody st.current_p_lines ∧
        (flushBlock st).parsed.sections = st.parsed.sections) := by
  constructor
  · intro st line ht h2 h3
    have hne : pyStrip line ≠ "" := by
      intro he
      rw [he] at h2
      exact absurd h2 (by decide)
    have htitle : ¬((flushBlock st).parsed.title = "") := by
      rw [flushBlock_parsed_title]; exact ht
    simp only [processLine]
    rw [if_neg hne, if_pos h2, if_neg htitle, if_pos h3]
    exact ⟨rfl, rfl⟩
  · intro st hic hth hpl
    unfold flushBlock
    rw [if_pos ⟨hth, hpl⟩, if_pos hic]
    exact ⟨rfl, rfl⟩

/-- C5 witness: the theorem applied to the marker line `"# ВЫВОД:"` over a
state with the title already set, and to a conclusion-mode flush with the
accumulated body line `"итог"`. -/
theorem C5_conclusion_routing_witness :
    ((processLine ⟨⟨"Т", [], ""⟩, none, [], false⟩ "# ВЫВОД:").current_h2 = some "Вывод" ∧
      (processLine ⟨⟨"Т", [], ""⟩, none, [], false⟩ "# ВЫВОД:").in_conclusion = true) ∧
    ((flushBlock ⟨⟨"Т", [], ""⟩, some "Вывод", ["итог"], true⟩).parsed.conclusion =
        joinBody ["итог"] ∧
      (flushBlock ⟨⟨"Т", [], ""⟩, some "Вывод", ["итог"], true⟩).parsed.sections = []) :=
  ⟨C5_conclusion_routing.1 ⟨⟨"Т", [], ""⟩, none, [], false⟩ "# ВЫВОД:"
      (by decide) (by decide) (by decide),
    C5_conclusion_routing.2 ⟨⟨"Т", [], ""⟩, some "Вывод", ["итог"], true⟩
      rfl (by decide) (by decide)⟩

/-- C6: a block is emitted into `sections` or `conclusion` only if it
accumulated at least one non-empty body line: blank lines are skipped
entirely, a marker line reached with an empty accumulator changes neither
`sections` nor `conclusion`, the final flush with an empty accumulator
returns the document unchanged, and concretely a marker immediately
followed by another marker produces no entry for the first heading. -/
theorem C6_emission_requires_body :
    (∀ (st : ParseState) (line : String), pyStrip line = "" → processLine st line = st) ∧
    (∀ (st : ParseState) (line : String), st.current_p_lines = [] →
      (processLine st line).parsed.sections = st.parsed.sections ∧
        (processLine st line).parsed.conclusion = st.parsed.conclusion) ∧
    (∀ st : ParseState, st.current_p_lines = [] → (flushBlock st).parsed = st.parsed) ∧
    clean_and_parse_qwen_output "# Тема\n# Один\n# Два\nтело" =
      ⟨"Тема", [⟨"Два", "тело"⟩], ""⟩ := by
  have hflush : ∀ st : ParseState, st.current_p_lines = [] → flushBlock st = st := by
    intro st h
    unfold flushBlock
    rw [if_neg (fun hc => hc.2 h)]
  refine ⟨?_, ?_, ?_, by decide⟩
  · intro st line h
    simp only [processLine]
    rw [if_pos h]
  · intro st line h
    simp only [processLine, hflush st h]
    split_ifs <;> exact ⟨rfl, rfl⟩
  · intro st h
    rw [hflush st h]

/-- C6 witness: the theorem's step facts applied at a blank line, at a
marker line reached with an empty accumulator, and at a final flush with
an empty accumulator. -/
theorem C6_emission_requires_body_witness :
    processLine ⟨⟨"Т", [], ""⟩, some "А", [], false⟩ "   " =
        ⟨⟨"Т", [], ""⟩, some "А", [], false⟩ ∧
      ((processLine ⟨⟨"Т", [], ""⟩, some "А", [], false⟩ "# Б").parsed.sections = [] ∧
        (processLine ⟨⟨"Т", [], ""⟩, some "А", [], false⟩ "# Б").parsed.conclusion = "") ∧
      (flushBlock ⟨⟨"Т", [], ""⟩, some "А", [], false⟩).parsed = ⟨"Т", [], ""⟩ :=
  ⟨C6_emission_requires_body.1 ⟨⟨"Т", [], ""⟩, some "А", [], false⟩ "   " (by decide),
    C6_emission_requires_body.2.1 ⟨⟨"Т", [], ""⟩, some "А", [], false⟩ "# Б" rfl,
    C6_emission_requires_body.2.2.1 ⟨⟨"Т", [], ""⟩, some "А", [], false⟩ rfl⟩

theorem sectionsOk_flushBlock (st : ParseState)
    (h : st.parsed.sections.all (fun s => s.h2 != "") = true) :
    (flushBlock st).parsed.sections.all (fun s => s.h2 != "") = true := by
  unfold flushBlock
  split_ifs with hc hic
  · exact h
  · rcases hc with ⟨hth, hpl⟩
    simp only [List.all_append, h, Bool.true_and, List.all_cons, List.all_nil, Bool.and_true]
    cases hh : st.current_h2 with
    | none => rw [hh] at hth; exact absurd hth (by decide)
    | some s =>
      rw [hh] at hth
      simp only [pyTruthyOpt, decide_eq_true_eq] at hth
      simpa [Option.getD, bne_iff_ne] using hth
  · exact h

theorem sectionsOk_processLine (st : ParseState) (line : String)
    (h : st.parsed.sections.all (fun s => s.h2 != "") = true) :
    (processLine st line).parsed.sections.all (fun s => s.h2 != "") = true := by
  simp only [processLine]
  split_ifs <;>
    first
      | exact h
      | exact sectionsOk_flushBlock st h

theorem sectionsOk_foldl (ls : List String) :
    ∀ st : ParseState, st.parsed.sections.all (fun s => s.h2 != "") = true →
      ((ls.foldl processLine st)).parsed.sections.all (fun s => s.h2 != "") = true := by
  induction ls with
  | nil => intro st h; exact h
  | cons l t ih =>
    intro st h
    exact ih (processLine st l) (sectionsOk_processLine st l h)

/-- C10: every entry of the parsed `sections` list has a non-empty heading;
and a body line reached while the current heading is the empty string
(as set by a non-title marker line with empty header text, which is falsy
in the flush and accumulation tests) leaves the state unchanged, so such
body lines are dropped. -/
theorem C10_sections_heading_nonempty :
    (∀ raw : String,
      ((clean_and_parse_qwen_output raw).sections.all (fun s => s.h2 != "")) = true) ∧
    (∀ (st : ParseState) (line : String), st.current_h2 = some "" →
      pyStartsWith (pyStrip line) "#" = false → processLine st line = st) := by
  constructor
  · intro raw
    simp only [clean_and_parse_qwen_output]
    exact sectionsOk_flushBlock _ (sectionsOk_foldl _ _ (by rfl))
  · intro st line hh hm
    simp only [processLine]
    by_cases he : pyStrip line = ""
    · rw [if_pos he]
    · rw [if_neg he, if_neg (by simp [hm] : ¬(pyStartsWith (pyStrip line) "#" = true)),
        hh, if_neg (by decide : ¬(pyTruthyOpt (some "") = true))]

/-- C10 witness: the sections of a concrete parse all carry non-empty
headings, and a body line after an empty-header marker is dropped. -/
theorem C10_sections_heading_nonempty_witness :
    ((clean_and_parse_qwen_output "# Т\n#\nпотерянная строка\n# Ч\nтекст").sections.all
        (fun s => s.h2 != "")) = true ∧
    processLine ⟨⟨"Т", [], ""⟩, some "", [], false⟩ "строка" =
      ⟨⟨"Т", [], ""⟩, some "", [], false⟩ :=
  ⟨C10_sections_heading_nonempty.1 "# Т\n#\nпотерянная строка\n# Ч\nтекст",
    C10_sections_heading_nonempty.2 ⟨⟨"Т", [], ""⟩, some "", [], false⟩ "строка"
      rfl (by decide)⟩

theorem flushBlock_id_of_h2_none (st : ParseState) (hh : st.current_h2 = none) :
    flushBlock st = st := by
  unfold flushBlock
  rw [if_neg (fun hc => by rw [hh] at hc; exact absurd hc.1 (by decide))]

theorem processLine_title_stable (st : ParseState) (line : String)
    (h : st.parsed.title ≠ "") :
    (processLine st line).parsed.title = st.parsed.title := by
  simp only [processLine]
  split_ifs with h1 h2 h3 h4 h5
  · rfl
  · exact absurd (flushBlock_parsed_title st ▸ h3) h
  · exact flushBlock_parsed_title st
  · exact flushBlock_parsed_title st
  · rfl
  · rfl

theorem foldl_title_stable (ls : List String) :
    ∀ st : ParseState, st.parsed.title ≠ "" →
      ((ls.foldl processLine st)).parsed.title = st.parsed.title := by
  induction ls with
  | nil => intro st _; rfl
  | cons l t ih =>
    intro st h
    rw [List.foldl_cons,
      ih (processLine st l) (by rw [processLine_title_stable st l h]; exact h)]
    exact processLine_title_stable st l h

theorem title_run (ls : List String) :
    ∀ st : ParseState, st.parsed.title = "" → st.current_h2 = none →
      ((ls.foldl processLine st)).parsed.title = firstTitle ls := by
  induction ls with
  | nil => intro st h _; rw [List.foldl_nil, h]; rfl
  | cons l t ih =>
    intro st h hh
    rw [List.foldl_cons]
    by_cases he : pyStrip l = ""
    · have hp : processLine st l = st := by
        simp only [processLine]; rw [if_pos he]
      have hskip : firstTitle (l :: t) = firstTitle t := by
        simp only [firstTitle]
        rw [if_neg (fun hc => by rw [he] at hc; exact absurd hc.1 (by decide))]
      rw [hp, hskip]
      exact ih st h hh
    · by_cases hm : pyStartsWith (pyStrip l) "#" = true
      · have hp : processLine st l =
            { st with parsed := { st.parsed with
                title := pyStrip (pyDropOne (pyStrip l)) } } := by
          simp only [processLine]
          rw [if_neg he, if_pos hm, flushBlock_id_of_h2_none st hh, if_pos h]
        by_cases hhd : pyStrip (pyDropOne (pyStrip l)) = ""
        · have hskip : firstTitle (l :: t) = firstTitle t := by
            simp only [firstTitle]; rw [if_neg (fun hc => hc.2 hhd)]
          rw [hp, hskip]
          exact ih _ hhd hh
        · have hfst : firstTitle (l :: t) = pyStrip (pyDropOne (pyStrip l)) := by
            simp only [firstTitle]; rw [if_pos ⟨hm, hhd⟩]
          rw [hp, hfst, foldl_title_stable t _ hhd]
      · have hp : processLine st l = st := by
          simp only [processLine]
          rw [if_neg he, if_neg hm, hh,
            if_neg (by decide : ¬(pyTruthyOpt none = true))]
        have hskip : firstTitle (l :: t) = firstTitle t := by
          simp only [firstTitle]; rw [if_neg (fun hc => hm hc.1)]
        rw [hp, hskip]
        exact ih st h hh

theorem firstTitle_cut (ls : List String) :
    firstTitle (cutAtFirstHash ls) = firstTitle ls := by
  induction ls with
  | nil => rfl
  | cons l t ih =>
    by_cases hm : pyStartsWith (pyStrip l) "#" = true
    · have hcut : cutAtFirstHash (l :: t) = l :: t := by
        simp [cutAtFirstHash, findFirstHash, hm]
      rw [hcut]
    · have hcut : cutAtFirstHash (l :: t) = cutAtFirstHash t := by
        unfold cutAtFirstHash
        simp only [findFirstHash, if_neg hm]
        cases hf : findFirstHash t with
        | none => simp
        | some i => simp [List.drop_succ_cons]
      have hskip : firstTitle (l :: t) = firstTitle t := by
        simp only [firstTitle]; rw [if_neg (fun hc => hm hc.1)]
      rw [hcut, hskip, ih]

/-- C3 (amended): the parser's `title` equals the header text of the first
marker line whose header is non-empty (the empty string when there is
none): a marker line with empty header text, while the title is unset,
assigns the empty string to `title` — leaving it falsy — so a later marker
line can still become the title; and processing a marker line while the
title is unset only sets the title, establishing no current heading. -/
theorem C3_title_first_nonempty_header :
    (∀ raw : String,
      (clean_and_parse_qwen_output raw).title = firstTitle (pySplitNL (pyStrip raw))) ∧
    (∀ (st : ParseState) (line : String), st.parsed.title = "" → st.current_h2 = none →
      pyStartsWith (pyStrip line) "#" = true →
      processLine st line =
        { st with parsed := { st.parsed with
            title := pyStrip (pyDropOne (pyStrip line)) } }) := by
  constructor
  · intro raw
    simp only [clean_and_parse_qwen_output]
    rw [flushBlock_parsed_title,
      title_run (cutAtFirstHash (pySplitNL (pyStrip raw))) initState rfl rfl]
    exact firstTitle_cut _
  · intro st line h hh hm
    have he : pyStrip line ≠ "" := fun c => by rw [c] at hm; exact absurd hm (by decide)
    simp only [processLine]
    rw [if_neg he, if_pos hm, flushBlock_id_of_h2_none st hh, if_pos h]

/-- C3: the claim as stated is false at two inputs — when the first marker
line has empty header text, the title is set from a LATER marker line
(`"#\n# Позже\nтекст"` parses with title `"Позже"`, not `""`); and the
first heading's text can appear as a section entry when the same heading
text recurs (`"# Тема\nх\n# Тема\nу"` has title `"Тема"` and a section
headed `"Тема"`). -/
theorem C3_counterexample :
    (clean_and_parse_qwen_output "#\n# Позже\nтекст").title = "Позже" ∧
    ("Позже" : String) ≠ "" ∧
    (clean_and_parse_qwen_output "# Тема\nх\n# Тема\nу").title = "Тема" ∧
    (clean_and_parse_qwen_output "# Тема\nх\n# Тема\nу").sections = [⟨"Тема", "у"⟩] :=
  ⟨by decide, by decide, by decide, by decide⟩

/-- C3 witness: the theorem applied to a concrete input with leading noise
and to the initial state at the concrete marker line `"# Заголовок"`. -/
theorem C3_title_first_nonempty_header_witness :
    (clean_and_parse_qwen_output "болтовня\n# Заголовок\nтело").title =
        firstTitle (pySplitNL (pyStrip "болтовня\n# Заголовок\nтело")) ∧
    processLine initState "# Заголовок" =
      { initState with parsed := { initState.parsed with
          title := pyStrip (pyDropOne (pyStrip "# Заголовок")) } } :=
  ⟨C3_title_first_nonempty_header.1 "болтовня\n# Заголовок\nтело",
    C3_title_first_nonempty_header.2 initState "# Заголовок" rfl rfl (by decide)⟩

theorem processLine_blank (st : ParseState) (line : String) (h : pyStrip line = "") :
    processLine st line = st := by
  simp only [processLine]
  rw [if_pos h]

theorem processLine_conclusion_marker (st : ParseState) (line : String)
    (he : pyStrip line ≠ "") (hm : pyStartsWith (pyStrip line) "#" = true) :
    (processLine st line).parsed.conclusion = (flushBlock st).parsed.conclusion := by
  simp only [processLine]
  rw [if_neg he, if_pos hm]
  split_ifs <;> rfl

theorem processLine_conclusion_body (st : ParseState) (line : String)
    (he : pyStrip line ≠ "") (hm : ¬(pyStartsWith (pyStrip line) "#" = true)) :
    (processLine st line).parsed.conclusion = st.parsed.conclusion := by
  simp only [processLine]
  rw [if_neg he, if_neg hm]
  split_ifs <;> rfl

theorem flushBlock_conclusion_of (st : ParseState)
    (hf : pyTruthyOpt st.current_h2 = true ∧ st.current_p_lines ≠ [])
    (hic : st.in_conclusion = true) :
    (flushBlock st).parsed.conclusion = joinBody st.current_p_lines := by
  unfold flushBlock
  rw [if_pos hf, if_pos hic]

theorem flushBlock_conclusion_keep (st : ParseState)
    (hic : ¬(st.in_conclusion = true)) :
    (flushBlock st).parsed.conclusion = st.parsed.conclusion := by
  unfold flushBlock
  split_ifs <;> rfl

theorem flushBlock_id_of_no_flush (st : ParseState)
    (hf : ¬(pyTruthyOpt st.current_h2 = true ∧ st.current_p_lines ≠ [])) :
    flushBlock st = st := by
  unfold flushBlock
  rw [if_neg hf]

theorem lastAssigned_append_singleton (l : List String) (a : String) :
    lastAssigned (l ++ [a]) = a := by
  induction l with
  | nil => rfl
  | cons x xs ih =>
    cases xs with
    | nil => rfl
    | cons y ys => exact ih

theorem foldl_processLineL_base (ls : List String) :
    ∀ stL : ParseStateL, (ls.foldl processLineL stL).base = ls.foldl processLine stL.base := by
  induction ls with
  | nil => intro stL; rfl
  | cons l t ih =>
    intro stL
    rw [List.foldl_cons, List.foldl_cons, ih (processLineL stL l)]
    rfl

theorem concInv_processLineL (stL : ParseStateL) (l : String)
    (h : stL.base.parsed.conclusion = lastAssigned stL.concLog) :
    (processLineL stL l).base.parsed.conclusion =
      lastAssigned (processLineL stL l).concLog := by
  obtain ⟨b, lg⟩ := stL
  simp only [processLineL]
  by_cases he : pyStrip l = ""
  · rw [if_neg (fun hc => hc.1 he), processLine_blank b l he]
    exact h
  · by_cases hm : pyStartsWith (pyStrip l) "#" = true
    · by_cases hf : pyTruthyOpt b.current_h2 = true ∧ b.current_p_lines ≠ []
      · by_cases hic : b.in_conclusion = true
        · rw [if_pos ⟨he, hm, hf, hic⟩, lastAssigned_append_singleton,
            processLine_conclusion_marker b l he hm, flushBlock_conclusion_of b hf hic]
        · rw [if_neg (fun hc => hic hc.2.2.2),
            processLine_conclusion_marker b l he hm, flushBlock_conclusion_keep b hic]
          exact h
      · rw [if_neg (fun hc => hf hc.2.2.1),
          processLine_conclusion_marker b l he hm, flushBlock_id_of_no_flush b hf]
        exact h
    · rw [if_neg (fun hc => hm hc.2.1), processLine_conclusion_body b l he hm]
      exact h

theorem concInv_foldl (ls : List String) :
    ∀ stL : ParseStateL, stL.base.parsed.conclusion = lastAssigned stL.concLog →
      (ls.foldl processLineL stL).base.parsed.conclusion =
        lastAssigned (ls.foldl processLineL stL).concLog := by
  induction ls with
  | nil => intro stL h; exact h
  | cons l t ih =>
    intro stL h
    exact ih (processLineL stL l) (concInv_processLineL stL l h)

theorem concInv_final (stL : ParseStateL)
    (h : stL.base.parsed.conclusion = lastAssigned stL.concLog) :
    (flushBlock stL.base).parsed.conclusion = lastAssigned (finalLog stL) := by
  unfold finalLog
  by_cases hf : pyTruthyOpt stL.base.current_h2 = true ∧ stL.base.current_p_lines ≠ []
  · by_cases hic : stL.base.in_conclusion = true
    · rw [if_pos ⟨hf, hic⟩, lastAssigned_append_singleton,
        flushBlock_conclusion_of _ hf hic]
    · rw [if_neg (fun hc => hic hc.2), flushBlock_conclusion_keep _ hic]
      exact h
  · rw [if_neg (fun hc => hf hc.1), flushBlock_id_of_no_flush _ hf]
    exact h

/-- C4: the instrumented parser (which records every value assigned to
`conclusion`, at both assignment sites) computes the same document as the
plain parser, and the final `conclusion` equals the LAST recorded
assignment (`""` when there was none): with several conclusion-matching
headings, each later flushed conclusion block overwrites the previous
value on assignment, so only the last assigned body is retained, and a
single `conclusion` string exists in the result. -/
theorem C4_conclusion_last_assignment (raw : String) :
    (clean_and_parse_qwen_output_logged raw).1 = clean_and_parse_qwen_output raw ∧
    (clean_and_parse_qwen_output_logged raw).1.conclusion =
      lastAssigned (clean_and_parse_qwen_output_logged raw).2 := by
  constructor
  · simp only [clean_and_parse_qwen_output_logged, clean_and_parse_qwen_output]
    rw [foldl_processLineL_base]
  · simp only [clean_and_parse_qwen_output_logged]
    exact concInv_final _ (concInv_foldl _ _ rfl)

end GA309
